import Mathlib

/-!
Verification of the hex-coordinate spatial core of the `rust-harmony`
repository: the 3D hex position model (`src/lib.rs`), the weighted hex grid
with A* pathfinding (`src/grid.rs`), the declarative rule engine
(`src/template.rs`), and the chunk-based world map (`src/map.rs`).

Modelling conventions, shared by every definition below.
* Rust `i32` values are embedded as `Int`; `i32::MAX` is the explicit
  sentinel `MAXi32`.  All arithmetic performed by the code under scrutiny
  stays far from the `i32` boundaries on every input analysed here, so no
  wrap-around modelling is needed; where the source could overflow on
  extreme inputs this is noted next to the definition.
* `HashMap`/`HashSet` are embedded by their observable lookup behaviour:
  a map is a function into `Option`, insertion is pointwise update, a set
  is a list with membership.  No analysed operation depends on hash
  iteration order.
* `std::collections::BinaryHeap` (a max-heap on the reversed `Node`
  ordering, i.e. popping a node of minimal `priority`, tie order
  unspecified) is embedded as a list whose `popMin` removes the first
  node of minimal priority.  Every property settled below is decided
  within executions in which at most one element is ever tied, so the
  unspecified tie order is never observable.
* The `while let` search loop and the back-pointer walk are embedded with
  an explicit fuel parameter; each execution analysed below finishes in at
  most two iterations, well inside the fuel, where the bounded loop
  coincides exactly with the source's unbounded loop.
* `f32` payload fields of the rule-document schema are carried as `ℚ`;
  no implemented operation of the engine ever reads them.  The single
  `f32` computation the code performs, `(base_cost as f32 * 1.5) as i32`
  on a nonnegative `i32`, equals `base_cost * 3 / 2` in exact arithmetic
  for every magnitude reachable here (it is exact for `base_cost < 2^22`,
  and the cost fed in is at most `2 * |Δelevation|` with the elevation
  difference of two stored cells joined by a search edge being at most 1).
* The seeded random generator (`rand::rngs::StdRng`) is external-crate
  code; it is embedded as an abstract deterministic state machine `Rng σ`
  (a state type with `seed_from_u64` / `gen_range` / `gen_bool` transition
  functions), over which the map-generation definitions thread state
  exactly as the source does.  The properties proved about the world map
  hold for every such deterministic generator.
-/

/-! ## Position model (`src/lib.rs`) -/

/-- `HexPosition { q, r, z }`: axial planar coordinates plus vertical
coordinate, from `src/lib.rs`. -/
structure HexPosition where
  q : Int
  r : Int
  z : Int
deriving DecidableEq, Repr

/-- `HexPosition::new`. -/
def HexPosition.new (q r z : Int) : HexPosition := ⟨q, r, z⟩

/-- `HexPosition::new_2d`. -/
def HexPosition.new_2d (q r : Int) : HexPosition := ⟨q, r, 0⟩

/-- `HexPosition::cube_coords`: `(x, y, z)` with `x = q`, `z = r`,
`y = -x - z`. -/
def HexPosition.cube_coords (p : HexPosition) : Int × Int × Int :=
  (p.q, -p.q - p.r, p.r)

/-- `HexPosition::distance`: half the Manhattan distance of the cube
coordinates plus the absolute vertical difference. -/
def HexPosition.distance (a b : HexPosition) : Int :=
  let c1 := a.cube_coords
  let c2 := b.cube_coords
  let planar_distance := (|c1.1 - c2.1| + |c1.2.1 - c2.2.1| + |c1.2.2 - c2.2.2|) / 2
  let height_difference := |a.z - b.z|
  planar_distance + height_difference

/-! ## Grid data model (`src/grid.rs`) -/

/-- The `i32::MAX` sentinel used by the source for impassable terrain. -/
def MAXi32 : Int := 2147483647

/-- `TerrainType` from `src/grid.rs`. -/
inductive TerrainType where
  | Plain
  | Rough
  | Water
  | Wall
  | Sand
  | Snow
  | Swamp
  | Lava
deriving DecidableEq, Repr

/-- `Cell` from `src/grid.rs`. -/
structure Cell where
  position : HexPosition
  terrain : TerrainType
  movement_cost : Int
  elevation : Int
deriving DecidableEq, Repr

/-- `HexGrid`: cell storage keyed by full `HexPosition` (a `HashMap`,
embedded by its lookup function) plus the `(width, height)` size pair. -/
structure HexGrid where
  cells : HexPosition → Option Cell
  size : Int × Int

/-- `HexGrid::new`. -/
def HexGrid.new : HexGrid := ⟨fun _ => none, (0, 0)⟩

/-- `HexGrid::with_size`. -/
def HexGrid.with_size (width height : Int) : HexGrid := ⟨fun _ => none, (width, height)⟩

/-- `HexGrid::get_cell`. -/
def HexGrid.get_cell (g : HexGrid) (position : HexPosition) : Option Cell :=
  g.cells position

/-- `HexGrid::is_in_bounds`: the rectangle check on `(q, r)` followed by
the terrain-specific elevation rules when a cell is stored at the exact
position, and the default `[-10, 15]` window otherwise. -/
def HexGrid.is_in_bounds (g : HexGrid) (position : HexPosition) : Bool :=
  let in_grid : Bool :=
    0 ≤ position.q && position.q < g.size.1 && 0 ≤ position.r && position.r < g.size.2
  if !in_grid then
    false
  else
    match g.get_cell position with
    | some cell =>
      match cell.terrain with
      | .Water => cell.elevation ≤ 0
      | .Snow => cell.elevation ≥ 5
      | .Lava => cell.elevation ≤ 2
      | _ => -10 ≤ cell.elevation && cell.elevation ≤ 15
    | none => -10 ≤ position.z && position.z ≤ 15

/-- `HexGrid::get_neighbors`: the six planar offsets E, NE, NW, W, SW, SE
at the same `z`, then vertical up and down, each filtered through
`is_in_bounds`, in source order. -/
def HexGrid.get_neighbors (g : HexGrid) (position : HexPosition) : List HexPosition :=
  let directions : List (Int × Int) := [(1, 0), (1, -1), (0, -1), (-1, 0), (-1, 1), (0, 1)]
  let horizontal := (directions.map
    (fun d => HexPosition.new (position.q + d.1) (position.r + d.2) position.z)).filter
      (fun n => g.is_in_bounds n)
  let vertical := ([HexPosition.new position.q position.r (position.z + 1),
    HexPosition.new position.q position.r (position.z - 1)]).filter
      (fun n => g.is_in_bounds n)
  horizontal ++ vertical

/-- `HexGrid::add_cell`: normalizes `position.z` to `elevation`, derives the
base movement cost from the terrain, adds `2 * |Δelevation|` when the first
already-stored neighbor (in `get_neighbors` order) differs in elevation by
more than 1, inserts (overwriting), and grows the size rectangle.
(The source's `base_cost + elevation_diff * 2` can overflow `i32` only when
`base_cost` is the `i32::MAX` sentinel; no input analysed here reaches that
case.) -/
def HexGrid.add_cell (g : HexGrid) (position : HexPosition) (terrain : TerrainType)
    (elevation : Int) : HexGrid :=
  let position := { position with z := elevation }
  let base_cost : Int :=
    match terrain with
    | .Plain => 1
    | .Rough => 2
    | .Water => 3
    | .Wall => MAXi32
    | .Sand => 2
    | .Snow => 2
    | .Swamp => 3
    | .Lava => MAXi32
  let movement_cost : Int :=
    match ((g.get_neighbors position).filterMap (fun pos => g.get_cell pos)).head? with
    | some neighbor_cells =>
      let elevation_diff := |elevation - neighbor_cells.elevation|
      if elevation_diff > 1 then base_cost + elevation_diff * 2 else base_cost
    | none => base_cost
  { cells := fun p =>
      if p = position then some ⟨position, terrain, movement_cost, elevation⟩ else g.cells p
    size := (max g.size.1 (position.q + 1), max g.size.2 (position.r + 1)) }

/-- `HexGrid::elevation_cost`: `i32::MAX` when either endpoint has no stored
cell; otherwise the base cost `|Δelevation|` (doubled when above 1) with the
source's terrain-pair multipliers applied in the source's match order:
Water, then Snow, then Rough, then Wall, then Lava. -/
def HexGrid.elevation_cost (g : HexGrid) (fromPos toPos : HexPosition) : Int :=
  match g.get_cell fromPos with
  | none => MAXi32
  | some from_cell =>
    match g.get_cell toPos with
    | none => MAXi32
    | some to_cell =>
      let elevation_diff := |to_cell.elevation - from_cell.elevation|
      let base_cost := if elevation_diff ≤ 1 then elevation_diff else elevation_diff * 2
      if from_cell.terrain = .Water ∨ to_cell.terrain = .Water then
        base_cost * 2
      else if from_cell.terrain = .Snow ∨ to_cell.terrain = .Snow then
        base_cost * 2
      else if from_cell.terrain = .Rough ∨ to_cell.terrain = .Rough then
        base_cost * 3 / 2
      else if from_cell.terrain = .Wall ∨ to_cell.terrain = .Wall then
        MAXi32
      else if from_cell.terrain = .Lava ∨ to_cell.terrain = .Lava then
        MAXi32
      else
        base_cost

/-! ## A* pathfinding (`src/grid.rs`) -/

/-- `Node` pushed on the open-set heap in `find_path`. -/
structure Node where
  position : HexPosition
  cost : Int
  priority : Int
deriving Repr

/-- Pop from the open set: the source's `BinaryHeap<Node>` orders nodes by
reversed priority, so `pop` returns a node of minimal `priority`; this
embedding removes the first such node. -/
def popMin : List Node → Option (Node × List Node)
  | [] => none
  | n :: ns =>
    match popMin ns with
    | none => some (n, [])
    | some (m, rest) => if n.priority ≤ m.priority then some (n, ns) else some (m, n :: rest)

/-- Fuel for the back-pointer walk of `reconstruct_path`. -/
def pathFuel : Nat := 100

/-- The back-pointer walk of `HexGrid::reconstruct_path`: the source pushes
positions goal-first and reverses; accumulating them front-first is the same
list. -/
def reconstruct_path_aux : Nat → (HexPosition → Option HexPosition) → HexPosition →
    List HexPosition → List HexPosition
  | 0, _, current, acc => current :: acc
  | fuel + 1, came_from, current, acc =>
    match came_from current with
    | none => current :: acc
    | some previous => reconstruct_path_aux fuel came_from previous (current :: acc)

/-- `HexGrid::reconstruct_path`. -/
def reconstruct_path (came_from : HexPosition → Option HexPosition)
    (current : HexPosition) : List HexPosition :=
  reconstruct_path_aux pathFuel came_from current []

/-- Fuel for the main search loop of `find_path`. -/
def searchFuel : Nat := 100

/-- One neighbor step of the `for neighbor in …` loop body of
`HexGrid::find_path`, threading the open set, back-pointers and g-scores. -/
def findPathStep (g : HexGrid) (goal : HexPosition) (current : Node)
    (closed_set : List HexPosition)
    (st : List Node × (HexPosition → Option HexPosition) × (HexPosition → Option Int))
    (neighbor : HexPosition) :
    List Node × (HexPosition → Option HexPosition) × (HexPosition → Option Int) :=
  let (open_set, came_from, g_score) := st
  if neighbor ∈ closed_set then st
  else
    match g.cells neighbor with
    | none => st
    | some neighbor_cell =>
      if neighbor_cell.movement_cost = MAXi32 then st
      else
        let tentative_g_score :=
          (g_score current.position).getD 0 + neighbor_cell.movement_cost +
            g.elevation_cost current.position neighbor
        let better :=
          match g_score neighbor with
          | none => true
          | some v => tentative_g_score < v
        if better then
          let came_from' := fun p => if p = neighbor then some current.position else came_from p
          let g_score' := fun p => if p = neighbor then some tentative_g_score else g_score p
          let h_score := neighbor.distance goal
          let f_score := tentative_g_score + h_score
          (open_set ++ [⟨neighbor, tentative_g_score, f_score⟩], came_from', g_score')
        else st

/-- The `while let Some(current) = open_set.pop()` loop of
`HexGrid::find_path`, bounded by fuel. -/
def findPathLoop (g : HexGrid) (goal : HexPosition) : Nat → List Node →
    (HexPosition → Option HexPosition) → (HexPosition → Option Int) →
    List HexPosition → Option (List HexPosition)
  | 0, _, _, _, _ => none
  | fuel + 1, open_set, came_from, g_score, closed_set =>
    match popMin open_set with
    | none => none
    | some (current, rest) =>
      if current.position = goal then
        some (reconstruct_path came_from current.position)
      else if current.position ∈ closed_set then
        findPathLoop g goal fuel rest came_from g_score closed_set
      else
        let closed_set' := current.position :: closed_set
        let st := (g.get_neighbors current.position).foldl
          (findPathStep g goal current closed_set') (rest, came_from, g_score)
        findPathLoop g goal fuel st.1 st.2.1 st.2.2 closed_set'

/-- `HexGrid::find_path`: rejects out-of-bounds endpoints, then runs the A*
loop from `start` with g-score 0. -/
def HexGrid.find_path (g : HexGrid) (start goal : HexPosition) : Option (List HexPosition) :=
  if !(g.is_in_bounds start) || !(g.is_in_bounds goal) then
    none
  else
    findPathLoop g goal searchFuel [⟨start, 0, 0⟩] (fun _ => none)
      (fun p => if p = start then some 0 else none) []

/-! ## Rule-engine schema (`src/template.rs`)

Declared inside a `template` namespace mirroring the Rust module, because
some of the source's type names (e.g. `Action`) already exist in Mathlib's
root namespace.  Field names that are Lean keywords are renamed with a
trailing underscore (`structure_`, `to_`) or to a synonym (`Corridor.finish`
for the source's `end`). -/

namespace template

/-- Embedding of Rust `f32` payload fields of the rule-document schema.
They are carried but never read by any implemented engine operation. -/
abbrev F32 := ℚ

/-- `HexOffset` from `src/template.rs`. -/
structure HexOffset where
  q : Int
  r : Int
  terrain : TerrainType

/-- `RoofStyle` from `src/template.rs`. -/
inductive RoofStyle where
  | Flat
  | Peaked (slope : F32)
  | Domed (radius : Int)
  | Tiered (levels : Int)

/-- `StructureModification` from `src/template.rs`. -/
inductive StructureModification where
  | AddFloor (level : Int) (terrain : TerrainType)
  | AddWall (position : HexOffset) (height : Int)
  | AddRoof (style : RoofStyle) (height : Int)
  | AddDecoration (decoration_type : String) (position : HexOffset)
  | ModifyTerrain (position : HexOffset) (terrain : TerrainType)

/-- `StructureVariant` from `src/template.rs`. -/
structure StructureVariant where
  name : String
  probability : F32
  modifications : List StructureModification

/-- `AlignmentRule` from `src/template.rs`. -/
inductive AlignmentRule where
  | Grid (spacing : Int)
  | Radial (center : HexOffset) (rings : Int)
  | Organic (min_spacing : Int)
  | Linear (direction : Int) (spacing : Int)

/-- `GrowthPattern` from `src/template.rs`. -/
inductive GrowthPattern where
  | Outward
  | Inward
  | Linear (direction : Int)
  | Clustered (cluster_size : Int)

/-- `GenerationRules` from `src/template.rs`. -/
structure GenerationRules where
  min_spacing : Int
  max_count : Int
  alignment : AlignmentRule
  growth_pattern : GrowthPattern

/-- `ConnectionType` from `src/template.rs`. -/
inductive ConnectionType where
  | Road
  | Wall
  | Bridge
  | Door
  | Path

/-- `ConnectionPoint` from `src/template.rs`. -/
structure ConnectionPoint where
  position : HexOffset
  connection_type : ConnectionType
  required : Bool

/-- `Room` from `src/template.rs`. -/
structure Room where
  size : Int × Int
  purpose : String
  required_connections : List String

/-- `Corridor` from `src/template.rs`. -/
structure Corridor where
  start : HexOffset
  finish : HexOffset
  width : Int

/-- `InteriorLayout` from `src/template.rs`. -/
structure InteriorLayout where
  rooms : List Room
  corridors : List Corridor
  entrances : List HexOffset

/-- `ElevationRequirement` from `src/template.rs`. -/
structure ElevationRequirement where
  min : Int
  max : Int
  relative_to_base : Bool

/-- `StructureTemplate` from `src/template.rs`. -/
structure StructureTemplate where
  name : String
  structure_type : String
  footprint : List HexOffset
  required_terrain : Option TerrainType
  elevation_requirements : Option ElevationRequirement
  tags : List String
  parent_template : Option String
  variants : List StructureVariant
  generation_rules : GenerationRules
  connections : List ConnectionPoint
  interior_layout : Option InteriorLayout

/-- `Condition` from `src/template.rs`: the full declared tagged union,
including the unimplemented kinds and the boolean combinators. -/
inductive Condition where
  | TerrainType (terrain : TerrainType)
  | ElevationRange (min : Int) (max : Int)
  | AdjacentTo (structure_type : String)
  | MinDistanceFrom (structure_type : String) (distance : Int)
  | MaxDistanceFrom (structure_type : String) (distance : Int)
  | BiomeType (biome : String)
  | NearWater (distance : Int)
  | HasTag (tag : String)
  | PopulationDensity (min : F32) (max : F32)
  | ResourceAvailable (resource : String) (amount : Int)
  | RoadAccess (distance : Int)
  | SlopeRange (min_degrees : F32) (max_degrees : F32)
  | ViewDistance (min : Int)
  | WindExposure (min : F32) (max : F32)
  | SunExposure (min : F32) (max : F32)
  | TemplateExists (template_name : String)
  | And (conditions : List Condition)
  | Or (conditions : List Condition)
  | Not (condition : Condition)

/-- `RoadStyle` from `src/template.rs`. -/
inductive RoadStyle where
  | Straight
  | Winding (variation : F32)
  | Organic (roughness : F32)

/-- `TerrainOperation` from `src/template.rs`. -/
inductive TerrainOperation where
  | Smooth
  | Roughen (intensity : F32)
  | Raise (amount : Int)
  | Lower (amount : Int)
  | Flatten (target : Int)

/-- `WaterFeatureType` from `src/template.rs`. -/
inductive WaterFeatureType where
  | Lake
  | River (width : Int)
  | Ocean
  | Pond
  | Canal (width : Int)

/-- `NoiseType` from `src/template.rs`. -/
inductive NoiseType where
  | Perlin
  | Simplex
  | Worley
  | Ridged

/-- `Action` from `src/template.rs`: the full declared tagged union,
including the kinds `apply_actions` leaves as no-ops. -/
inductive Action where
  | PlaceStructure (structure_ : StructureTemplate)
  | SetTerrain (terrain : TerrainType)
  | SetElevation (elevation : Int)
  | AddTag (tag : String)
  | GenerateWall (height : Int) (material : TerrainType)
  | ApplyTemplate (template_name : String)
  | GenerateRoad (width : Int) (material : TerrainType) (to_ : HexPosition) (style : RoadStyle)
  | PlaceStructureCluster (structure_ : StructureTemplate) (count : Int) (spacing : Int)
      (variation : Bool)
  | ModifyTerrain (radius : Int) (operation : TerrainOperation)
  | SpawnResource (resource_type : String) (amount : Int) (spread : Int)
  | SetBiome (biome : String)
  | CreateWaterFeature (feature_type : WaterFeatureType) (size : Int)
  | ApplyNoise (noise_type : NoiseType) (amplitude : F32) (frequency : F32)

/-- `Rule` from `src/template.rs`. -/
structure Rule where
  name : String
  conditions : List Condition
  actions : List Action
  priority : Int

/-- `Template` from `src/template.rs`. -/
structure Template where
  name : String
  description : String
  rules : List Rule
  tags : List String

/-- `TemplateEngine`: the registered templates, keyed by name. -/
structure TemplateEngine where
  templates : String → Option Template

/-! ## Rule-engine evaluation (`src/template.rs`) -/

/-- The per-condition match inside `TemplateEngine::evaluate_conditions`:
`TerrainType` is exact terrain equality on the target cell, `ElevationRange`
an inclusive bound check, and every other kind falls to the `_ => false`
placeholder arm. -/
def condHolds (grid : HexGrid) (position : HexPosition) (condition : Condition) : Bool :=
  match condition with
  | .TerrainType terrain =>
    match grid.get_cell position with
    | some cell => cell.terrain = terrain
    | none => false
  | .ElevationRange min max =>
    match grid.get_cell position with
    | some cell => min ≤ cell.elevation && cell.elevation ≤ max
    | none => false
  | _ => false

/-- `TemplateEngine::evaluate_conditions`: conjunction over the list. -/
def evaluate_conditions (conditions : List Condition) (grid : HexGrid)
    (position : HexPosition) : Bool :=
  conditions.all (condHolds grid position)

/-- `TemplateEngine::apply_actions`: folds the action list over the grid;
only `SetTerrain` (keeping elevation) and `SetElevation` (keeping terrain)
mutate, both through `add_cell`, and only when a cell is stored at
`position`; every other kind is the `_ => ()` placeholder arm. -/
def apply_actions (actions : List Action) (grid : HexGrid) (position : HexPosition) : HexGrid :=
  actions.foldl (fun grid action =>
    match action with
    | .SetTerrain terrain =>
      match grid.get_cell position with
      | some cell => grid.add_cell position terrain cell.elevation
      | none => grid
    | .SetElevation elevation =>
      match grid.get_cell position with
      | some cell => grid.add_cell position cell.terrain elevation
      | none => grid
    | _ => grid) grid

/-- Stable insertion step for descending priority: `x` goes before the
first rule of strictly smaller priority, after earlier rules of equal
priority. -/
def insertRuleDesc (x : Rule) : List Rule → List Rule
  | [] => [x]
  | y :: ys => if y.priority ≤ x.priority then x :: y :: ys else y :: insertRuleDesc x ys

/-- The source's `rules.sort_by_key(|r| -r.priority)`: Rust's stable sort,
embedded as the (unique) stable sort by descending priority. -/
def sortRulesByPriorityDesc : List Rule → List Rule
  | [] => []
  | x :: xs => insertRuleDesc x (sortRulesByPriorityDesc xs)

/-- The `for rule in rules` loop of `TemplateEngine::apply_template`:
first rule whose whole condition list holds fires, and its action list is
applied; the pair returned is (return value, resulting grid). -/
def applyRulesLoop (grid : HexGrid) (position : HexPosition) : List Rule → Bool × HexGrid
  | [] => (false, grid)
  | rule :: rest =>
    if evaluate_conditions rule.conditions grid position then
      (true, apply_actions rule.actions grid position)
    else
      applyRulesLoop grid position rest

/-- `TemplateEngine::apply_template`. -/
def TemplateEngine.apply_template (eng : TemplateEngine) (name : String) (grid : HexGrid)
    (position : HexPosition) : Bool × HexGrid :=
  match eng.templates name with
  | some template => applyRulesLoop grid position (sortRulesByPriorityDesc template.rules)
  | none => (false, grid)

/-- The set of condition kinds `evaluate_conditions` actually implements. -/
def Condition.implemented : Condition → Bool
  | .TerrainType _ => true
  | .ElevationRange _ _ => true
  | _ => false

end template

/-! ## World map (`src/map.rs`)

Declared inside a `map` namespace mirroring the Rust module.  The
external-crate `rand::rngs::StdRng` is embedded as an abstract
deterministic generator `Rng σ`: a state type `σ` with the three
transition functions the source calls (`seed_from_u64`, `gen_range` on an
half-open integer range, and `gen_bool` with a probability literal).  All
world-map definitions thread the generator state exactly as the source
threads `self.rng`. -/

namespace map

/-- `BiomeType` from `src/map.rs`. -/
inductive BiomeType where
  | Forest
  | Mountain
  | Plains
  | Desert
  | Ocean
  | Tundra
deriving DecidableEq, Repr

/-- `BuildingType` from `src/map.rs`. -/
inductive BuildingType where
  | House
  | Shop
  | Temple
  | Castle
  | Tower
  | Inn
  | Stable
  | Wall
  | Gate
deriving DecidableEq, Repr

/-- `VegetationType` from `src/map.rs`. -/
inductive VegetationType where
  | Tree
  | Bush
  | Flower
  | Grass
  | DeadTree
deriving DecidableEq, Repr

/-- `LandmarkType` from `src/map.rs`. -/
inductive LandmarkType where
  | Mountain
  | Hill
  | Rock
  | Statue
  | Well
  | Bridge
deriving DecidableEq, Repr

/-- `StructureType` from `src/map.rs`. -/
inductive StructureType where
  | Building (b : BuildingType)
  | Vegetation (v : VegetationType)
  | Landmark (l : LandmarkType)
deriving DecidableEq, Repr

/-- `ChunkPosition` from `src/map.rs`. -/
structure ChunkPosition where
  x : Int
  y : Int
deriving DecidableEq, Repr

/-- `MapChunk` from `src/map.rs`; the `structures` hash map is embedded by
its lookup function. -/
structure MapChunk where
  position : ChunkPosition
  grid : HexGrid
  structures : HexPosition → Option StructureType
  biome : BiomeType

/-- Abstract deterministic seeded generator standing for
`rand::rngs::StdRng`. -/
structure Rng (σ : Type) where
  seed_from_u64 : Nat → σ
  gen_range : σ → Int → Int → Int × σ
  gen_bool : σ → ℚ → Bool × σ

/-- `WorldMap` from `src/map.rs`: chunk cache (by lookup function), chunk
size, and exclusively-owned generator state. -/
structure WorldMap (σ : Type) where
  chunks : ChunkPosition → Option MapChunk
  chunk_size : Int
  rng : σ

/-- `WorldMap::with_seed`. -/
def WorldMap.with_seed (R : Rng σ) (chunk_size : Int) (seed : Nat) : WorldMap σ :=
  { chunks := fun _ => none, chunk_size := chunk_size, rng := R.seed_from_u64 seed }

/-- `WorldMap::determine_biome`: one uniform draw in `0..6` mapped over the
six biomes (the position argument is unused by the source). -/
def determine_biome (R : Rng σ) (rng : σ) (_position : ChunkPosition) : BiomeType × σ :=
  let (n, rng) := R.gen_range rng 0 6
  (if n = 0 then .Forest
   else if n = 1 then .Mountain
   else if n = 2 then .Plains
   else if n = 3 then .Desert
   else if n = 4 then .Ocean
   else .Tundra, rng)

/-- `WorldMap::get_terrain_for_biome`: the fixed biome-conditioned terrain
probability table. -/
def get_terrain_for_biome (R : Rng σ) (rng : σ) (biome : BiomeType) : TerrainType × σ :=
  match biome with
  | .Forest =>
    let (b, rng) := R.gen_bool rng 0.7
    (if b then .Plain else .Rough, rng)
  | .Mountain =>
    let (b, rng) := R.gen_bool rng 0.8
    (if b then .Rough else .Wall, rng)
  | .Plains => (.Plain, rng)
  | .Desert =>
    let (b, rng) := R.gen_bool rng 0.9
    (if b then .Plain else .Rough, rng)
  | .Ocean => (.Water, rng)
  | .Tundra =>
    let (b, rng) := R.gen_bool rng 0.6
    (if b then .Plain else .Rough, rng)

/-- `WorldMap::generate_structure`: the hard-coded (biome, terrain)
structure table, with the second draw taken only when the first fails,
as in the source's `if / else if` chain. -/
def generate_structure (R : Rng σ) (rng : σ) (biome : BiomeType) (terrain : TerrainType) :
    Option StructureType × σ :=
  match biome, terrain with
  | .Forest, .Plain =>
    let (b, rng) := R.gen_bool rng 0.4
    if b then (some (.Vegetation .Tree), rng)
    else
      let (b2, rng) := R.gen_bool rng 0.2
      if b2 then (some (.Vegetation .Bush), rng) else (none, rng)
  | .Mountain, .Rough =>
    let (b, rng) := R.gen_bool rng 0.3
    if b then (some (.Landmark .Rock), rng) else (none, rng)
  | .Plains, .Plain =>
    let (b, rng) := R.gen_bool rng 0.1
    if b then (some (.Building .House), rng)
    else
      let (b2, rng) := R.gen_bool rng 0.05
      if b2 then (some (.Landmark .Well), rng) else (none, rng)
  | _, _ => (none, rng)

/-- `WorldMap::generate_chunk`: one biome draw for the whole chunk, then for
every `(q, r)` of the `chunk_size × chunk_size` local area (row-major, as the
source's nested `for` loops) a terrain draw, a biome-specific elevation draw
(`Ocean` fixed at `-1` with no draw), `add_cell`, and an independent optional
structure draw. -/
def WorldMap.generate_chunk (w : WorldMap σ) (R : Rng σ) (position : ChunkPosition) :
    MapChunk × σ :=
  let (biome, rng) := determine_biome R w.rng position
  let init : HexGrid × (HexPosition → Option StructureType) × σ :=
    (HexGrid.new, fun _ => none, rng)
  let res := (List.range w.chunk_size.toNat).foldl (fun acc q =>
    (List.range w.chunk_size.toNat).foldl (fun acc r =>
      let (grid, structures, rng) := acc
      let hex_pos := HexPosition.new_2d (position.x * w.chunk_size + (q : Int))
        (position.y * w.chunk_size + (r : Int))
      let (terrain, rng) := get_terrain_for_biome R rng biome
      let (elevation, rng) :=
        match biome with
        | .Mountain => R.gen_range rng 5 15
        | .Plains => R.gen_range rng 0 3
        | .Forest => R.gen_range rng 1 5
        | .Desert => R.gen_range rng 0 2
        | .Ocean => (-1, rng)
        | .Tundra => R.gen_range rng 2 7
      let grid := grid.add_cell hex_pos terrain elevation
      let (st, rng) := generate_structure R rng biome terrain
      let structures :=
        match st with
        | some s => fun p => if p = hex_pos then some s else structures p
        | none => structures
      (grid, structures, rng)) acc) init
  (⟨position, res.1, res.2.1, biome⟩, res.2.2)

/-- `WorldMap::get_or_generate_chunk`: generate and cache on a miss, return
the cached chunk on a hit; the returned map carries the (possibly advanced)
generator state. -/
def WorldMap.get_or_generate_chunk (w : WorldMap σ) (R : Rng σ) (position : ChunkPosition) :
    MapChunk × WorldMap σ :=
  match w.chunks position with
  | some chunk => (chunk, w)
  | none =>
    let res := w.generate_chunk R position
    (res.1,
      { w with
        chunks := fun p => if p = position then some res.1 else w.chunks p
        rng := res.2 })

/-- `WorldMap::get_chunk`. -/
def WorldMap.get_chunk (w : WorldMap σ) (position : ChunkPosition) : Option MapChunk :=
  w.chunks position

/-- A call sequence of `get_or_generate_chunk` requests, returning the
chunks produced in order together with the final map state. -/
def WorldMap.request_chunks (w : WorldMap σ) (R : Rng σ) (positions : List ChunkPosition) :
    List MapChunk × WorldMap σ :=
  positions.foldl (fun acc p =>
    let res := acc.2.get_or_generate_chunk R p
    (acc.1 ++ [res.1], res.2)) ([], w)

/-- A concrete deterministic generator instance (used to instantiate the
generator-parametric theorems at an explicit input). -/
def natRng : Rng Nat :=
  { seed_from_u64 := fun n => n
    gen_range := fun s lo _hi => (lo, s + 1)
    gen_bool := fun s _p => (false, s + 1) }

end map

/-! ## Concrete scenarios referenced by the claims -/

/-- The grid of the spec's concrete pathfinding scenario: a Plain cell
inserted at `(0,0)` with elevation 0, then a Water cell at its East
neighbor `(1,0)` with elevation `-1` (stored, after `add_cell` normalizes
the key, at `(1,0,-1)`). -/
def c2grid : HexGrid :=
  (HexGrid.new.add_cell ⟨0, 0, 0⟩ .Plain 0).add_cell ⟨1, 0, 0⟩ .Water (-1)

/-- A grid with a Wall cell at `(0,0,0)` and a Rough cell at `(1,0,0)`,
exhibiting an edge with a Wall endpoint and a Rough endpoint. -/
def wallRoughGrid : HexGrid :=
  (HexGrid.new.add_cell ⟨0, 0, 0⟩ .Wall 0).add_cell ⟨1, 0, 0⟩ .Rough 0

/-- The single rule of the spec's rule-engine scenario:
conditions `[TerrainType = Plain]`, actions `[SetElevation 5]`. -/
def ruleSetElev : template.Rule :=
  { name := "set elevation"
    conditions := [template.Condition.TerrainType .Plain]
    actions := [template.Action.SetElevation 5]
    priority := 0 }

/-- The one-rule template of the spec's rule-engine scenario. -/
def tmplBasic : template.Template :=
  { name := "basic"
    description := ""
    rules := [ruleSetElev]
    tags := [] }

/-- An engine holding exactly `tmplBasic` under the name `"basic"`. -/
def eng4 : template.TemplateEngine :=
  ⟨fun n => if n = "basic" then some tmplBasic else none⟩

/-- A grid with a single Plain cell at `(0,0)`, elevation 0. -/
def g4 : HexGrid := HexGrid.new.add_cell ⟨0, 0, 0⟩ .Plain 0

/-- A grid with a single Rough cell at `(0,0)`, elevation 0. -/
def gRough : HexGrid := HexGrid.new.add_cell ⟨0, 0, 0⟩ .Rough 0

/-- The terrain-pair cost exactly as claim C1 states it (for two stored
endpoint cells): Wall/Lava endpoints checked FIRST (impassable), then
Water, then Snow, then Rough.  Written from the claim's words, to be
compared against the source's `elevation_cost`. -/
def claimC1_pair_cost (from_cell to_cell : Cell) : Int :=
  let elevation_diff := |to_cell.elevation - from_cell.elevation|
  let base_cost := if elevation_diff ≤ 1 then elevation_diff else elevation_diff * 2
  if from_cell.terrain = .Wall ∨ to_cell.terrain = .Wall ∨
      from_cell.terrain = .Lava ∨ to_cell.terrain = .Lava then
    MAXi32
  else if from_cell.terrain = .Water ∨ to_cell.terrain = .Water then
    base_cost * 2
  else if from_cell.terrain = .Snow ∨ to_cell.terrain = .Snow then
    base_cost * 2
  else if from_cell.terrain = .Rough ∨ to_cell.terrain = .Rough then
    base_cost * 3 / 2
  else
    base_cost

/-- The terrain-pair cost as the amended claim C1 states it, i.e. in the
order the source actually checks the pairs: Water, then Snow, then Rough
(×1.5 floored), then Wall, then Lava (`i32::MAX` sentinel), else the base
cost unchanged. -/
def amendedC1_pair_cost (from_cell to_cell : Cell) : Int :=
  let elevation_diff := |to_cell.elevation - from_cell.elevation|
  let base_cost := if elevation_diff ≤ 1 then elevation_diff else elevation_diff * 2
  if from_cell.terrain = .Water ∨ to_cell.terrain = .Water then
    base_cost * 2
  else if from_cell.terrain = .Snow ∨ to_cell.terrain = .Snow then
    base_cost * 2
  else if from_cell.terrain = .Rough ∨ to_cell.terrain = .Rough then
    base_cost * 3 / 2
  else if from_cell.terrain = .Wall ∨ to_cell.terrain = .Wall then
    MAXi32
  else if from_cell.terrain = .Lava ∨ to_cell.terrain = .Lava then
    MAXi32
  else
    base_cost

/-! ## Claim C9: distance identity, symmetry, and the literal check -/

/-- C9: for every position `A`, `distance(A, A) = 0`; for all `A`, `B`,
`distance(A, B) = distance(B, A)`; and
`distance((0,0,0), (1,1,2)) = 4` exactly. -/
theorem C9_distance_identity_symmetry_literal :
    (∀ a : HexPosition, a.distance a = 0) ∧
    (∀ a b : HexPosition, a.distance b = b.distance a) ∧
    HexPosition.distance ⟨0, 0, 0⟩ ⟨1, 1, 2⟩ = 4 := by
  refine ⟨?_, ?_, by decide⟩
  · intro a
    simp [HexPosition.distance, HexPosition.cube_coords]
  · intro a b
    simp only [HexPosition.distance, HexPosition.cube_coords]
    rw [abs_sub_comm a.q b.q, abs_sub_comm (-a.q - a.r) (-b.q - b.r),
      abs_sub_comm a.r b.r, abs_sub_comm a.z b.z]

/-! ## Claim C6: `is_in_bounds` two-tier characterization -/

/-- C6: `is_in_bounds` is false outside the `[0,width) × [0,height)`
rectangle; inside it, a stored cell is checked by the terrain-specific
elevation rule (Water ≤ 0, Snow ≥ 5, Lava ≤ 2, otherwise `[-10, 15]`),
and an empty position is checked by `-10 ≤ z ≤ 15` regardless of terrain. -/
theorem C6_is_in_bounds_spec (g : HexGrid) (p : HexPosition) :
    (¬(0 ≤ p.q ∧ p.q < g.size.1 ∧ 0 ≤ p.r ∧ p.r < g.size.2) →
      g.is_in_bounds p = false) ∧
    ((0 ≤ p.q ∧ p.q < g.size.1 ∧ 0 ≤ p.r ∧ p.r < g.size.2) →
      (∀ c, g.get_cell p = some c →
        (g.is_in_bounds p = true ↔
          (match c.terrain with
           | .Water => c.elevation ≤ 0
           | .Snow => 5 ≤ c.elevation
           | .Lava => c.elevation ≤ 2
           | _ => -10 ≤ c.elevation ∧ c.elevation ≤ 15))) ∧
      (g.get_cell p = none →
        (g.is_in_bounds p = true ↔ (-10 ≤ p.z ∧ p.z ≤ 15)))) := by
  constructor
  · intro h
    have hb : (0 ≤ p.q && p.q < g.size.1 && 0 ≤ p.r && p.r < g.size.2) = false := by
      by_contra hb
      rw [Bool.not_eq_false] at hb
      simp only [Bool.and_eq_true, decide_eq_true_eq] at hb
      exact h ⟨hb.1.1.1, hb.1.1.2, hb.1.2, hb.2⟩
    simp only [HexGrid.is_in_bounds, hb, Bool.not_false, if_true]
  · intro h
    have hb : (0 ≤ p.q && p.q < g.size.1 && 0 ≤ p.r && p.r < g.size.2) = true := by
      simp only [Bool.and_eq_true, decide_eq_true_eq]
      exact ⟨⟨⟨h.1, h.2.1⟩, h.2.2.1⟩, h.2.2.2⟩
    constructor
    · intro c hc
      rcases c with ⟨cp, ct, cm, ce⟩
      cases ct <;>
        simp [HexGrid.is_in_bounds, hb, hc]
    · intro hc
      simp [HexGrid.is_in_bounds, hb, hc]

/-- C6 witness: in a `1 × 1` grid with no stored cell, position `(0,0,20)`
is inside the rectangle, has no cell, and fails the default elevation
window. -/
theorem C6_is_in_bounds_spec_witness :
    (HexGrid.is_in_bounds (HexGrid.with_size 1 1) ⟨0, 0, 20⟩ = true ↔
      (-10 ≤ (20 : Int) ∧ (20 : Int) ≤ 15)) ∧
    HexGrid.is_in_bounds (HexGrid.with_size 1 1) ⟨0, 0, 20⟩ = false :=
  ⟨((C6_is_in_bounds_spec (HexGrid.with_size 1 1) ⟨0, 0, 20⟩).2
      (by decide)).2 rfl, by decide⟩

/-! ## Claim C5: only `TerrainType` and `ElevationRange` are implemented -/

/-- C5: condition evaluation implements exactly `TerrainType` (terrain
equality on the target cell) and `ElevationRange` (inclusive elevation
bounds); every unimplemented kind — the combinators `And`/`Or`/`Not`
included — evaluates to `false` for every grid and position, so a condition
list containing one can never be satisfied. -/
theorem C5_unimplemented_conditions_never_match (g : HexGrid) (p : HexPosition) :
    (∀ c : template.Condition, c.implemented = false → template.condHolds g p c = false) ∧
    (∀ t, template.condHolds g p (.TerrainType t) = true ↔
      ∃ cell, g.get_cell p = some cell ∧ cell.terrain = t) ∧
    (∀ lo hi, template.condHolds g p (.ElevationRange lo hi) = true ↔
      ∃ cell, g.get_cell p = some cell ∧ lo ≤ cell.elevation ∧ cell.elevation ≤ hi) ∧
    (∀ (conds : List template.Condition) (c : template.Condition), c ∈ conds →
      c.implemented = false → template.evaluate_conditions conds g p = false) := by
  have hfalse : ∀ c : template.Condition, c.implemented = false →
      template.condHolds g p c = false := by
    intro c hc
    cases c <;> simp_all [template.Condition.implemented, template.condHolds]
  refine ⟨hfalse, ?_, ?_, ?_⟩
  · intro t
    cases h : g.get_cell p <;> simp [template.condHolds, h]
  · intro lo hi
    cases h : g.get_cell p <;> simp [template.condHolds, h, and_assoc]
  · intro conds c hmem hni
    rw [template.evaluate_conditions, List.all_eq_false]
    exact ⟨c, hmem, by rw [hfalse c hni]; simp⟩

/-- C5 witness: in the concrete one-cell Plain grid, the combinator
`And []` is unimplemented and evaluates to false, and a condition list
containing it never matches. -/
theorem C5_unimplemented_conditions_never_match_witness :
    template.condHolds g4 ⟨0, 0, 0⟩ (.And []) = false ∧
    template.evaluate_conditions [.And []] g4 ⟨0, 0, 0⟩ = false :=
  ⟨(C5_unimplemented_conditions_never_match g4 ⟨0, 0, 0⟩).1 (.And []) rfl,
    (C5_unimplemented_conditions_never_match g4 ⟨0, 0, 0⟩).2.2.2 [.And []] (.And [])
      (List.mem_singleton.mpr rfl) rfl⟩

/-! ## Helper lemmas about the stable rule sort and the rule loop -/

/-- Membership in the stable insertion step. -/
theorem template.mem_insertRuleDesc {x z : template.Rule} {l : List template.Rule} :
    z ∈ template.insertRuleDesc x l ↔ z = x ∨ z ∈ l := by
  induction l with
  | nil => simp [template.insertRuleDesc]
  | cons y ys ih =>
    rw [template.insertRuleDesc]
    split
    · simp
    · rw [List.mem_cons, ih, List.mem_cons]
      tauto

/-- Inserting preserves descending-priority sortedness. -/
theorem template.insertRuleDesc_pairwise (x : template.Rule) (l : List template.Rule)
    (h : l.Pairwise (fun a b => b.priority ≤ a.priority)) :
    (template.insertRuleDesc x l).Pairwise (fun a b => b.priority ≤ a.priority) := by
  induction l with
  | nil => simp [template.insertRuleDesc]
  | cons y ys ih =>
    rw [List.pairwise_cons] at h
    rw [template.insertRuleDesc]
    split
    · rename_i hxy
      refine List.Pairwise.cons ?_ (List.Pairwise.cons h.1 h.2)
      intro z hz
      rcases List.mem_cons.mp hz with hz | hz
      · exact hz ▸ hxy
      · exact le_trans (h.1 z hz) hxy
    · rename_i hxy
      push_neg at hxy
      refine List.Pairwise.cons ?_ (ih h.2)
      intro z hz
      rcases template.mem_insertRuleDesc.mp hz with hz | hz
      · exact hz ▸ le_of_lt hxy
      · exact h.1 z hz

/-- Filtering at one priority commutes with the stable insertion step. -/
theorem template.filter_insertRuleDesc (x : template.Rule) (l : List template.Rule) (k : Int) :
    (template.insertRuleDesc x l).filter (fun r => r.priority = k) =
      if x.priority = k then x :: l.filter (fun r => r.priority = k)
      else l.filter (fun r => r.priority = k) := by
  induction l with
  | nil => rw [template.insertRuleDesc]; split <;> simp_all [List.filter]
  | cons y ys ih =>
    rw [template.insertRuleDesc]
    split
    · rename_i hxy
      by_cases hx : x.priority = k <;> simp [List.filter_cons, hx]
    · rename_i hxy
      push_neg at hxy
      by_cases hx : x.priority = k <;> by_cases hy : y.priority = k <;>
        simp [List.filter_cons, hx, hy, ih] <;> omega

/-- The stable sort is sorted by descending priority. -/
theorem template.sortRules_pairwise (l : List template.Rule) :
    (template.sortRulesByPriorityDesc l).Pairwise (fun a b => b.priority ≤ a.priority) := by
  induction l with
  | nil => simp [template.sortRulesByPriorityDesc]
  | cons x xs ih =>
    exact template.insertRuleDesc_pairwise x _ ih

/-- The stable sort keeps the original relative order of equal-priority
rules: filtering at any one priority returns the original sublist. -/
theorem template.sortRules_stable (l : List template.Rule) (k : Int) :
    (template.sortRulesByPriorityDesc l).filter (fun r => r.priority = k) =
      l.filter (fun r => r.priority = k) := by
  induction l with
  | nil => rfl
  | cons x xs ih =>
    rw [template.sortRulesByPriorityDesc, template.filter_insertRuleDesc, List.filter_cons]
    by_cases hx : x.priority = k <;> simp [hx, ih]

/-- The rule loop fires exactly the first rule (in list order) whose whole
condition list is satisfied. -/
theorem template.applyRulesLoop_eq_find (grid : HexGrid) (position : HexPosition)
    (rules : List template.Rule) :
    template.applyRulesLoop grid position rules =
      match rules.find? (fun r => template.evaluate_conditions r.conditions grid position) with
      | some r => (true, template.apply_actions r.actions grid position)
      | none => (false, grid) := by
  induction rules with
  | nil => rfl
  | cons r rest ih =>
    rw [template.applyRulesLoop, List.find?_cons]
    by_cases h : template.evaluate_conditions r.conditions grid position <;> simp [h, ih]

/-! ## Claim C3: `apply_template` dispatch semantics -/

/-- C3: `apply_template` returns `false` with the grid unchanged when the
name is unregistered; otherwise the rules are considered sorted by
descending priority with ties in original order (stated by sortedness plus
per-priority filter stability of the sort), the first rule whose whole
condition list holds (an empty list holds vacuously) fires its actions and
yields `true`, and if no rule matches the result is `false` with the grid
unchanged. -/
theorem C3_apply_template_spec (eng : template.TemplateEngine) (name : String)
    (grid : HexGrid) (position : HexPosition) :
    (eng.templates name = none → eng.apply_template name grid position = (false, grid)) ∧
    (∀ t, eng.templates name = some t →
      (template.sortRulesByPriorityDesc t.rules).Pairwise
          (fun a b => b.priority ≤ a.priority) ∧
      (∀ k : Int, (template.sortRulesByPriorityDesc t.rules).filter
            (fun r => r.priority = k) = t.rules.filter (fun r => r.priority = k)) ∧
      (∀ r, (template.sortRulesByPriorityDesc t.rules).find?
            (fun r => template.evaluate_conditions r.conditions grid position) = some r →
        eng.apply_template name grid position =
          (true, template.apply_actions r.actions grid position)) ∧
      ((template.sortRulesByPriorityDesc t.rules).find?
            (fun r => template.evaluate_conditions r.conditions grid position) = none →
        eng.apply_template name grid position = (false, grid))) ∧
    template.evaluate_conditions [] grid position = true := by
  refine ⟨?_, ?_, rfl⟩
  · intro h
    rw [template.TemplateEngine.apply_template, h]
  · intro t ht
    refine ⟨template.sortRules_pairwise t.rules, fun k => template.sortRules_stable t.rules k,
      ?_, ?_⟩
    · intro r hr
      rw [template.TemplateEngine.apply_template, ht]
      show template.applyRulesLoop grid position (template.sortRulesByPriorityDesc t.rules) = _
      rw [template.applyRulesLoop_eq_find, hr]
    · intro hr
      rw [template.TemplateEngine.apply_template, ht]
      show template.applyRulesLoop grid position (template.sortRulesByPriorityDesc t.rules) = _
      rw [template.applyRulesLoop_eq_find, hr]

/-- C3 witness: at the concrete engine, an unregistered name returns
`(false, grid)`, and the registered one-rule template fires on the Plain
cell. -/
theorem C3_apply_template_spec_witness :
    eng4.templates "nope" = none ∧
    template.TemplateEngine.apply_template eng4 "nope" g4 ⟨0, 0, 0⟩ = (false, g4) ∧
    (template.sortRulesByPriorityDesc tmplBasic.rules).find?
        (fun r => template.evaluate_conditions r.conditions g4 ⟨0, 0, 0⟩) =
      some ruleSetElev ∧
    template.TemplateEngine.apply_template eng4 "basic" g4 ⟨0, 0, 0⟩ =
      (true, template.apply_actions ruleSetElev.actions g4 ⟨0, 0, 0⟩) :=
  ⟨rfl, (C3_apply_template_spec eng4 "nope" g4 ⟨0, 0, 0⟩).1 rfl, rfl,
    ((C3_apply_template_spec eng4 "basic" g4 ⟨0, 0, 0⟩).2.1 tmplBasic rfl).2.2.1
      ruleSetElev rfl⟩

/-! ## Claim C7: chunk caching is idempotent -/

/-- C7: a second `get_or_generate_chunk` at the same position returns the
identical chunk (terrain, elevation, structures, biome all included in the
chunk value) and leaves the whole map state — the cached chunks and the
random generator state — unchanged, for every deterministic generator. -/
theorem C7_get_or_generate_chunk_idempotent {σ : Type} (R : map.Rng σ)
    (w : map.WorldMap σ) (p : map.ChunkPosition) :
    ((w.get_or_generate_chunk R p).2.get_or_generate_chunk R p).1 =
      (w.get_or_generate_chunk R p).1 ∧
    ((w.get_or_generate_chunk R p).2.get_or_generate_chunk R p).2 =
      (w.get_or_generate_chunk R p).2 := by
  cases h : w.chunks p <;> simp [map.WorldMap.get_or_generate_chunk, h]

/-! ## Claim C8: same seed, same call sequence, same chunks -/

/-- C8: two independently constructed `WorldMap`s with the same seed and
chunk size produce, under the identical sequence of
`get_or_generate_chunk` calls, identical chunks in order and identical
cached chunks at every position, for every deterministic generator. -/
theorem C8_same_seed_same_chunks {σ : Type} (R : map.Rng σ) (chunk_size : Int)
    (seed : Nat) (w1 w2 : map.WorldMap σ) (positions : List map.ChunkPosition)
    (h1 : w1 = map.WorldMap.with_seed R chunk_size seed)
    (h2 : w2 = map.WorldMap.with_seed R chunk_size seed) :
    (w1.request_chunks R positions).1 = (w2.request_chunks R positions).1 ∧
    (∀ p, (w1.request_chunks R positions).2.get_chunk p =
      (w2.request_chunks R positions).2.get_chunk p) := by
  subst h1
  subst h2
  exact ⟨rfl, fun _ => rfl⟩

/-- C8 witness: instantiation at the concrete generator `natRng`, seed 0,
chunk size 1, and the one-request call sequence. -/
theorem C8_same_seed_same_chunks_witness :
    map.WorldMap.with_seed map.natRng 1 0 = map.WorldMap.with_seed map.natRng 1 0 ∧
    ((map.WorldMap.with_seed map.natRng 1 0).request_chunks map.natRng [⟨0, 0⟩]).1 =
      ((map.WorldMap.with_seed map.natRng 1 0).request_chunks map.natRng [⟨0, 0⟩]).1 :=
  ⟨rfl,
    (C8_same_seed_same_chunks map.natRng 1 0 (map.WorldMap.with_seed map.natRng 1 0)
      (map.WorldMap.with_seed map.natRng 1 0) [⟨0, 0⟩] rfl rfl).1⟩

/-! ## Helper lemmas about the search loop -/

/-- The back-pointer walk with no back-pointers yields just the start. -/
theorem reconstruct_path_aux_none (fuel : Nat) (cur : HexPosition) (acc : List HexPosition) :
    reconstruct_path_aux fuel (fun _ => none) cur acc = cur :: acc := by
  cases fuel <;> rfl

/-- When the only open node already sits on the goal, the first loop
iteration returns the reconstructed path. -/
theorem findPathLoop_goal_first (g : HexGrid) (goal : HexPosition) (fuel : Nat)
    (c pr : Int) (came_from : HexPosition → Option HexPosition)
    (g_score : HexPosition → Option Int) (closed_set : List HexPosition) :
    findPathLoop g goal (fuel + 1) [⟨goal, c, pr⟩] came_from g_score closed_set =
      some (reconstruct_path came_from goal) := by
  rw [findPathLoop]
  simp [popMin]

/-! ## Claim C10: `find_path` from a position to itself -/

/-- C10: for every grid and every in-bounds position `p` — a stored cell at
`p` is not required — `find_path p p` succeeds with the single-node path
`[p]`: the goal-equality test fires on the first popped node, before any
neighbor or cell lookup. -/
theorem C10_find_path_self (g : HexGrid) (p : HexPosition)
    (h : g.is_in_bounds p = true) :
    g.find_path p p = some [p] := by
  unfold HexGrid.find_path
  rw [h]
  simp only [Bool.not_true, Bool.or_self, Bool.false_eq_true, if_false]
  rw [show searchFuel = 99 + 1 from rfl, findPathLoop_goal_first]
  unfold reconstruct_path
  rw [reconstruct_path_aux_none]

/-- C10 witness: the empty `1 × 1` grid, position `(0,0,0)` (in bounds, no
stored cell). -/
theorem C10_find_path_self_witness :
    HexGrid.is_in_bounds (HexGrid.with_size 1 1) ⟨0, 0, 0⟩ = true ∧
    HexGrid.find_path (HexGrid.with_size 1 1) ⟨0, 0, 0⟩ ⟨0, 0, 0⟩ = some [⟨0, 0, 0⟩] :=
  ⟨by decide, C10_find_path_self (HexGrid.with_size 1 1) ⟨0, 0, 0⟩ (by decide)⟩

/-! ## Claim C1: terrain-pair multiplier precedence in `elevation_cost` -/

/-- C1 counterexample: on the concrete Wall→Rough edge the claim's stated
precedence (Wall/Lava first ⇒ impassable, excluded) disagrees with the
source: `elevation_cost` matches the Rough arm first and yields the finite
cost 0, and `find_path` happily returns the two-node path across the edge
out of the Wall cell instead of excluding it. -/
theorem C1_precedence_counterexample :
    HexGrid.get_cell wallRoughGrid ⟨0, 0, 0⟩ = some ⟨⟨0, 0, 0⟩, .Wall, MAXi32, 0⟩ ∧
    HexGrid.get_cell wallRoughGrid ⟨1, 0, 0⟩ = some ⟨⟨1, 0, 0⟩, .Rough, 2, 0⟩ ∧
    claimC1_pair_cost ⟨⟨0, 0, 0⟩, .Wall, MAXi32, 0⟩ ⟨⟨1, 0, 0⟩, .Rough, 2, 0⟩ = MAXi32 ∧
    HexGrid.elevation_cost wallRoughGrid ⟨0, 0, 0⟩ ⟨1, 0, 0⟩ = 0 ∧
    (0 : Int) ≠ MAXi32 ∧
    HexGrid.find_path wallRoughGrid ⟨0, 0, 0⟩ ⟨1, 0, 0⟩ = some [⟨0, 0, 0⟩, ⟨1, 0, 0⟩] := by
  refine ⟨by decide, by decide, by decide, by decide, by decide, by decide⟩

/-- C1 amended: for two stored endpoint cells the pairwise cost is the base
`|Δelevation|` (doubled above 1) with multipliers applied in the source's
order — any Water endpoint ⇒ ×2; else any Snow endpoint ⇒ ×2; else any
Rough endpoint ⇒ ×1.5 floored; else any Wall endpoint, then any Lava
endpoint ⇒ the `i32::MAX` sentinel; else unchanged.  (Edges INTO Wall/Lava
cells are excluded in `find_path` by the `movement_cost == i32::MAX` check
on the destination; edges OUT of a Wall/Lava cell into a Water, Snow or
Rough cell get the finite multiplied cost and are not excluded, as the
counterexample exhibits.) -/
theorem C1_elevation_cost_amended (g : HexGrid) (p1 p2 : HexPosition) (c1 c2 : Cell)
    (h1 : g.get_cell p1 = some c1) (h2 : g.get_cell p2 = some c2) :
    g.elevation_cost p1 p2 = amendedC1_pair_cost c1 c2 := by
  unfold HexGrid.elevation_cost
  rw [h1, h2]
  rfl

/-- C1 amended witness: the concrete Wall→Rough edge. -/
theorem C1_elevation_cost_amended_witness :
    HexGrid.get_cell wallRoughGrid ⟨0, 0, 0⟩ = some ⟨⟨0, 0, 0⟩, .Wall, MAXi32, 0⟩ ∧
    HexGrid.get_cell wallRoughGrid ⟨1, 0, 0⟩ = some ⟨⟨1, 0, 0⟩, .Rough, 2, 0⟩ ∧
    HexGrid.elevation_cost wallRoughGrid ⟨0, 0, 0⟩ ⟨1, 0, 0⟩ =
      amendedC1_pair_cost ⟨⟨0, 0, 0⟩, .Wall, MAXi32, 0⟩ ⟨⟨1, 0, 0⟩, .Rough, 2, 0⟩ :=
  ⟨by decide, by decide,
    C1_elevation_cost_amended wallRoughGrid ⟨0, 0, 0⟩ ⟨1, 0, 0⟩
      ⟨⟨0, 0, 0⟩, .Wall, MAXi32, 0⟩ ⟨⟨1, 0, 0⟩, .Rough, 2, 0⟩ (by decide) (by decide)⟩

/-! ## Claim C2: the concrete Plain/Water pathfinding scenario -/

/-- C2 counterexample: the scenario's grid really holds the Plain cell
(cost 1, elevation 0) at `(0,0,0)` and the Water cell (cost 3, elevation
`-1`) at key `(1,0,-1)`, but `find_path` from `(0,0,0)` to the Water
cell's position returns `none`, not a 2-node path of weight 5. -/
theorem C2_scenario_counterexample :
    HexGrid.get_cell c2grid ⟨0, 0, 0⟩ = some ⟨⟨0, 0, 0⟩, .Plain, 1, 0⟩ ∧
    HexGrid.get_cell c2grid ⟨1, 0, -1⟩ = some ⟨⟨1, 0, -1⟩, .Water, 3, -1⟩ ∧
    HexGrid.find_path c2grid ⟨0, 0, 0⟩ ⟨1, 0, -1⟩ = none := by
  refine ⟨by decide, by decide, by decide⟩

/-- C2 amended: in this scenario `find_path` returns `none`.  `add_cell`
keys the Water cell at `(1,0,-1)` (its `z` normalized to the elevation),
while neighbor enumeration from `(0,0,0)` probes only the planar East
neighbor `(1,0,0)` at the same `z` and the vertical neighbors
`(0,0,±1)`; none of those positions holds a cell, so the search exhausts
the open set.  The same holds toward the plane-level East position
`(1,0,0)`. -/
theorem C2_find_path_returns_none :
    HexGrid.get_cell c2grid ⟨1, 0, 0⟩ = none ∧
    HexGrid.find_path c2grid ⟨0, 0, 0⟩ ⟨1, 0, -1⟩ = none ∧
    HexGrid.find_path c2grid ⟨0, 0, 0⟩ ⟨1, 0, 0⟩ = none := by
  refine ⟨by decide, by decide, by decide⟩

/-! ## Claim C4: `SetElevation` through `add_cell` rekeys the cell -/

/-- C4 counterexample: applying the one-rule template (`TerrainType=Plain` ⇒
`SetElevation 5`) at `(0,0,0)` returns `true`, but the cell at `(0,0,0)`
still has elevation 0 (not 5), and a NEW cell has been added at key
`(0,0,5)` — contradicting the claim that the grid gains no cell and the
cell at `(0,0)` ends with elevation 5. -/
theorem C4_set_elevation_counterexample :
    (template.TemplateEngine.apply_template eng4 "basic" g4 ⟨0, 0, 0⟩).1 = true ∧
    HexGrid.get_cell (template.TemplateEngine.apply_template eng4 "basic" g4 ⟨0, 0, 0⟩).2
      ⟨0, 0, 0⟩ = some ⟨⟨0, 0, 0⟩, .Plain, 1, 0⟩ ∧
    HexGrid.get_cell g4 ⟨0, 0, 5⟩ = none ∧
    HexGrid.get_cell (template.TemplateEngine.apply_template eng4 "basic" g4 ⟨0, 0, 0⟩).2
      ⟨0, 0, 5⟩ = some ⟨⟨0, 0, 5⟩, .Plain, 1, 5⟩ := by
  refine ⟨by decide, by decide, by decide, by decide⟩

/-- Reading any position other than the (rekeyed) inserted key is unchanged
by `add_cell`. -/
theorem get_cell_add_cell_ne (g : HexGrid) (pos p : HexPosition) (t : TerrainType)
    (e : Int) (h : p ≠ { pos with z := e }) :
    (g.add_cell pos t e).get_cell p = g.get_cell p := by
  simp only [HexGrid.add_cell, HexGrid.get_cell]
  rw [if_neg h]

/-- C4 amended: the application returns `true` and — because `SetElevation`
re-inserts through `add_cell`, which normalizes the key's `z` to the new
elevation — stores a new Plain cell with elevation 5 under key `(0,0,5)`,
leaves the original cell at `(0,0,0)` (elevation 0) and every other
position untouched; applying the same template at the position of a Rough
cell returns `false` with the grid unchanged. -/
theorem C4_set_elevation_amended :
    (template.TemplateEngine.apply_template eng4 "basic" g4 ⟨0, 0, 0⟩).1 = true ∧
    HexGrid.get_cell (template.TemplateEngine.apply_template eng4 "basic" g4 ⟨0, 0, 0⟩).2
      ⟨0, 0, 5⟩ = some ⟨⟨0, 0, 5⟩, .Plain, 1, 5⟩ ∧
    HexGrid.get_cell (template.TemplateEngine.apply_template eng4 "basic" g4 ⟨0, 0, 0⟩).2
      ⟨0, 0, 0⟩ = HexGrid.get_cell g4 ⟨0, 0, 0⟩ ∧
    (∀ p : HexPosition, p ≠ ⟨0, 0, 5⟩ →
      HexGrid.get_cell (template.TemplateEngine.apply_template eng4 "basic" g4 ⟨0, 0, 0⟩).2 p =
        HexGrid.get_cell g4 p) ∧
    template.TemplateEngine.apply_template eng4 "basic" gRough ⟨0, 0, 0⟩ = (false, gRough) := by
  have hres : (template.TemplateEngine.apply_template eng4 "basic" g4 ⟨0, 0, 0⟩).2 =
      g4.add_cell ⟨0, 0, 0⟩ .Plain 5 := rfl
  refine ⟨by decide, by decide, ?_, ?_, rfl⟩
  · rw [hres]
    exact get_cell_add_cell_ne g4 ⟨0, 0, 0⟩ ⟨0, 0, 0⟩ .Plain 5 (by decide)
  · intro p hp
    rw [hres]
    exact get_cell_add_cell_ne g4 ⟨0, 0, 0⟩ p .Plain 5 hp

/-- C4 amended witness: the untouched-position clause at the concrete
position `(9,9,9)`. -/
theorem C4_set_elevation_amended_witness :
    (⟨9, 9, 9⟩ : HexPosition) ≠ ⟨0, 0, 5⟩ ∧
    HexGrid.get_cell (template.TemplateEngine.apply_template eng4 "basic" g4 ⟨0, 0, 0⟩).2
      ⟨9, 9, 9⟩ = HexGrid.get_cell g4 ⟨9, 9, 9⟩ :=
  ⟨by decide, C4_set_elevation_amended.2.2.2.1 ⟨9, 9, 9⟩ (by decide)⟩
